import Mathlib

/-!
# msidal: token verification against an Azure AD tenant

A shallow embedding of `tokenverifier.go` (package `msidal`) and theorems about it.

Conventions of the embedding

* Go strings and byte slices are Lean `String`s (sequences of characters).
* A Go `error` is a `GoError`; a library call that returns `(x, err)` and whose result is
  only used after the `err != nil` check is an `Except GoError _`.
* What the package does to the outside world (the discovery request, the line it prints,
  the call of the go-oidc verifier) is recorded, in order, in a `Trace` that is passed
  through every function.
* What the outside world and the libraries answer (`http.NewRequest`, `httpClient.Do`,
  `json.Unmarshal`, `IDTokenVerifier.Verify`) is a parameter, `Env`; the general theorems
  hold for every `Env`, the examples run in the concrete environments `answering _`.
-/

namespace Msidal

/-! ## Package `strings` -/

/-- Go `strings.HasPrefix`: `len(s) >= len(pre) && s[0:len(pre)] == pre`. -/
def HasPrefix (s pre : String) : Bool :=
  decide (s.length ≥ pre.length) && (s.data.take pre.length == pre.data)

/-- Go `strings.TrimPrefix`: `s[len(pre):]` when `s` has the leading `pre`, else `s`. -/
def TrimPrefix (s pre : String) : String :=
  if HasPrefix s pre then ⟨s.data.drop pre.length⟩ else s

/-! ## Errors and package `fmt` -/

/-- A Go `error` value: a plain message (`errors.errorString`) or the result of
`fmt.Errorf` with a `%w` verb (`fmt.wrapError`), which keeps the wrapped error. -/
inductive GoError where
  | errorString (s : String)
  | wrapError (msg : String) (err : GoError)
deriving DecidableEq

/-- The method `Error()` of a Go error: its message. -/
def GoError.Error : GoError → String
  | .errorString s => s
  | .wrapError msg _ => msg

/-- Type `oidcDiscoveryInfo` of the source: the two fields read from the discovery
document. -/
structure oidcDiscoveryInfo where
  Issuer : String
  JWKSURL : String
deriving DecidableEq

/-- An operand of a `fmt` call in this package. -/
inductive Operand where
  | str (s : String)
  | err (e : GoError)
  | info (d : oidcDiscoveryInfo)

/-- The text `fmt` prints for an operand: a string or byte slice as it is, an error by its
message, the struct under `%+v` by its field names and values between braces. -/
def Operand.text : Operand → List Char
  | .str s => s.data
  | .err e => e.Error.data
  | .info d =>
    "\x7bIssuer:".data ++ d.Issuer.data ++ " JWKSURL:".data ++ d.JWKSURL.data ++ "\x7d".data

/-- The formatting loop of `fmt` for the verbs this package uses (`%s`, `%w`, `%+v`, `%%`):
a verb consumes the next operand, every other character is copied. No call of the package
has more operands than verbs, and operands left over are not printed. -/
def doPrintf : List Char → List Operand → List Char
  | [], _ => []
  | '%' :: '%' :: rest, args => '%' :: doPrintf rest args
  | '%' :: 's' :: rest, a :: args => a.text ++ doPrintf rest args
  | '%' :: 'w' :: rest, a :: args => a.text ++ doPrintf rest args
  | '%' :: '+' :: 'v' :: rest, a :: args => a.text ++ doPrintf rest args
  | '%' :: 's' :: rest, [] => "%!s(MISSING)".data ++ doPrintf rest []
  | '%' :: 'w' :: rest, [] => "%!w(MISSING)".data ++ doPrintf rest []
  | '%' :: '+' :: 'v' :: rest, [] => "%!v(MISSING)".data ++ doPrintf rest []
  | c :: rest, args => c :: doPrintf rest args

/-- Go `fmt.Sprintf`. -/
def Sprintf (format : String) (args : List Operand) : String :=
  ⟨doPrintf format.data args⟩

/-- The error operand that stands at the first `%w` verb of a format, if any. -/
def wrappedOperand : List Char → List Operand → Option GoError
  | [], _ => none
  | '%' :: '%' :: rest, args => wrappedOperand rest args
  | '%' :: 'w' :: _, .err e :: _ => some e
  | '%' :: 's' :: rest, _ :: args => wrappedOperand rest args
  | '%' :: 'w' :: rest, _ :: args => wrappedOperand rest args
  | '%' :: '+' :: 'v' :: rest, _ :: args => wrappedOperand rest args
  | _ :: rest, args => wrappedOperand rest args

/-- Go `fmt.Errorf`: the message is the formatted text; with a `%w` verb on an error
operand the result wraps that error. -/
def Errorf (format : String) (args : List Operand) : GoError :=
  match wrappedOperand format.data args with
  | some e => .wrapError (Sprintf format args) e
  | none => .errorString (Sprintf format args)

/-! ## Package `net/http` -/

/-- An `http.Request` as far as this package builds it: method, URL and header. -/
structure Request where
  Method : String
  URL : String
  Header : List (String × String)
deriving DecidableEq

/-- Go `Header.Set`: the entry for `key` is replaced by the single value `value`. -/
def Request.HeaderSet (req : Request) (key value : String) : Request :=
  { req with Header := (key, value) :: req.Header.filter (fun kv => kv.1 ≠ key) }

/-- The body stream of a response, by what reading it to the end yields: the bytes read
and the error that stopped the reading, if any. -/
structure Body where
  data : String
  err : Option GoError
deriving DecidableEq

/-- An `http.Response` as far as this package reads it. -/
structure Response where
  Status : String
  StatusCode : Nat
  Body : Body
deriving DecidableEq

/-- Go `http.StatusOK`. -/
def StatusOK : Nat := 200

/-- Go `ioutil.ReadAll`: the bytes read and the error. -/
def ReadAll (b : Body) : String × Option GoError := (b.data, b.err)

/-- The HTTP client of `cleanhttp.DefaultClient()`. -/
inductive Client where
  | cleanhttpDefault
deriving DecidableEq

/-! ## Package `go-oidc` -/

/-- Go `oidc.RS256`. -/
def RS256 : String := "RS256"

/-- Go `oidc.RemoteKeySet` as built by `oidc.NewRemoteKeySet(ctx, jwksURL)`; the context
carries the HTTP client. -/
structure RemoteKeySet where
  ctx : Client
  jwksURL : String
deriving DecidableEq

/-- Go `oidc.NewRemoteKeySet`. -/
def NewRemoteKeySet (ctx : Client) (jwksURL : String) : RemoteKeySet :=
  { ctx := ctx, jwksURL := jwksURL }

/-- Go `oidc.Config`, the fields this package sets. -/
structure Config where
  ClientID : String
  SupportedSigningAlgs : List String
deriving DecidableEq

/-- Go `oidc.IDTokenVerifier`. -/
structure IDTokenVerifier where
  keySet : RemoteKeySet
  config : Config
  issuer : String
deriving DecidableEq

/-- Go `oidc.NewVerifier`. -/
def NewVerifier (issuerURL : String) (keySet : RemoteKeySet) (config : Config) :
    IDTokenVerifier :=
  { keySet := keySet, config := config, issuer := issuerURL }

/-- Go `oidc.IDToken`: the claims of a verified token. -/
structure IDToken where
  Issuer : String
  Audience : List String
  Subject : String
  Expiry : Int
  IssuedAt : Int
deriving DecidableEq

/-! ## Package `encoding/json`

A model of `json.Unmarshal` into a value of type `oidcDiscoveryInfo`, used for the
concrete environments below. The theorems that hold for every environment do not depend
on it. -/

/-- A JSON value. -/
inductive JSONValue where
  | null
  | bool (b : Bool)
  | number (lit : List Char)
  | string (s : List Char)
  | array (elems : List JSONValue)
  | object (members : List (List Char × JSONValue))

/-- JSON white space. -/
def isSpace (c : Char) : Bool :=
  c == ' ' || c == '\t' || c == '\r' || c == '\n'

/-- Drops leading white space. -/
def skipSpace : List Char → List Char
  | [] => []
  | c :: rest => if isSpace c then skipSpace rest else c :: rest

/-- The value of a hexadecimal digit. -/
def hexVal (c : Char) : Option Nat :=
  if '0' ≤ c ∧ c ≤ '9' then some (c.toNat - '0'.toNat)
  else if 'a' ≤ c ∧ c ≤ 'f' then some (c.toNat - 'a'.toNat + 10)
  else if 'A' ≤ c ∧ c ≤ 'F' then some (c.toNat - 'A'.toNat + 10)
  else none

/-- The value of the four hexadecimal digits of a `\u` escape. -/
def hex4 (a b c d : Char) : Option Nat :=
  match hexVal a, hexVal b, hexVal c, hexVal d with
  | some a, some b, some c, some d => some (((a * 16 + b) * 16 + c) * 16 + d)
  | _, _, _, _ => none

/-- The character of a `\u` escape with value `n`, given the value `m` of a `\u` escape
that follows it directly: a surrogate pair is one character (and uses up the second
escape), a lone surrogate is U+FFFD. -/
def unescapeRune (n : Nat) (m : Option Nat) : Char × Bool :=
  if n < 0xD800 ∨ 0xE000 ≤ n then (Char.ofNat n, false)
  else match m with
    | some m =>
      if n < 0xDC00 ∧ 0xDC00 ≤ m ∧ m < 0xE000 then
        (Char.ofNat (0x10000 + (n - 0xD800) * 0x400 + (m - 0xDC00)), true)
      else (Char.ofNat 0xFFFD, false)
    | none => (Char.ofNat 0xFFFD, false)

/-- Reads a string literal after its opening quote: the decoded text and the input after
the closing quote. -/
def scanString : Nat → List Char → List Char → Option (List Char × List Char)
  | 0, _, _ => none
  | _ + 1, [], _ => none
  | _ + 1, '"' :: rest, acc => some (acc.reverse, rest)
  | fuel + 1, '\\' :: 'u' :: a :: b :: c :: d :: rest, acc =>
    match hex4 a b c d with
    | none => none
    | some n =>
      match rest with
      | '\\' :: 'u' :: a2 :: b2 :: c2 :: d2 :: rest2 =>
        match unescapeRune n (hex4 a2 b2 c2 d2) with
        | (r, true) => scanString fuel rest2 (r :: acc)
        | (r, false) => scanString fuel rest (r :: acc)
      | _ => scanString fuel rest ((unescapeRune n none).1 :: acc)
  | fuel + 1, '\\' :: c :: rest, acc =>
    if c = '"' ∨ c = '\\' ∨ c = '/' then scanString fuel rest (c :: acc)
    else if c = 'b' then scanString fuel rest ('\x08' :: acc)
    else if c = 'f' then scanString fuel rest ('\x0c' :: acc)
    else if c = 'n' then scanString fuel rest ('\n' :: acc)
    else if c = 'r' then scanString fuel rest ('\r' :: acc)
    else if c = 't' then scanString fuel rest ('\t' :: acc)
    else none
  | fuel + 1, c :: rest, acc =>
    if c.toNat < 0x20 then none else scanString fuel rest (c :: acc)

/-- Splits off the leading decimal digits. -/
def scanDigits : List Char → List Char × List Char
  | [] => ([], [])
  | c :: rest =>
    if '0' ≤ c ∧ c ≤ '9' then ((scanDigits rest).1.cons c, (scanDigits rest).2)
    else ([], c :: rest)

/-- The optional fraction and exponent of a number literal. -/
def scanFracExp (cs : List Char) : Option (List Char × List Char) :=
  let frac : Option (List Char × List Char) :=
    match cs with
    | '.' :: rest =>
      match scanDigits rest with
      | ([], _) => none
      | (ds, rest2) => some ('.' :: ds, rest2)
    | _ => some ([], cs)
  match frac with
  | none => none
  | some (f, rest) =>
    match rest with
    | e :: rest2 =>
      if e = 'e' ∨ e = 'E' then
        let (sign, rest3) : List Char × List Char :=
          match rest2 with
          | s :: r => if s = '+' ∨ s = '-' then ([s], r) else ([], rest2)
          | [] => ([], [])
        match scanDigits rest3 with
        | ([], _) => none
        | (ds, rest4) => some (f ++ e :: sign ++ ds, rest4)
      else some (f, rest)
    | [] => some (f, [])

/-- Reads a number literal: its text and the input after it. -/
def scanNumber (cs : List Char) : Option (List Char × List Char) :=
  let (sign, cs1) : List Char × List Char :=
    match cs with
    | '-' :: rest => (['-'], rest)
    | _ => ([], cs)
  match cs1 with
  | '0' :: rest => (scanFracExp rest).map fun (t, r) => (sign ++ '0' :: t, r)
  | c :: rest =>
    if '1' ≤ c ∧ c ≤ '9' then
      (scanFracExp (scanDigits rest).2).map fun (t, r) =>
        (sign ++ c :: (scanDigits rest).1 ++ t, r)
    else none
  | [] => none

mutual
/-- Reads one JSON value, white space before it included. -/
def parseValue : Nat → List Char → Option (JSONValue × List Char)
  | 0, _ => none
  | fuel + 1, cs =>
    match skipSpace cs with
    | 'n' :: 'u' :: 'l' :: 'l' :: rest => some (.null, rest)
    | 't' :: 'r' :: 'u' :: 'e' :: rest => some (.bool true, rest)
    | 'f' :: 'a' :: 'l' :: 's' :: 'e' :: rest => some (.bool false, rest)
    | '"' :: rest => (scanString (rest.length + 1) rest []).map fun (s, r) => (.string s, r)
    | '[' :: rest =>
      match skipSpace rest with
      | ']' :: rest2 => some (.array [], rest2)
      | rest2 => parseElements fuel rest2 []
    | '{' :: rest =>
      match skipSpace rest with
      | '}' :: rest2 => some (.object [], rest2)
      | rest2 => parseMembers fuel rest2 []
    | cs1 => (scanNumber cs1).map fun (t, r) => (.number t, r)
/-- Reads the elements of a non-empty array up to its closing bracket. -/
def parseElements : Nat → List Char → List JSONValue → Option (JSONValue × List Char)
  | 0, _, _ => none
  | fuel + 1, cs, acc =>
    match parseValue fuel cs with
    | none => none
    | some (v, rest) =>
      match skipSpace rest with
      | ',' :: rest2 => parseElements fuel rest2 (v :: acc)
      | ']' :: rest2 => some (.array (v :: acc).reverse, rest2)
      | _ => none
/-- Reads the members of a non-empty object up to its closing brace. -/
def parseMembers : Nat → List Char → List (List Char × JSONValue) →
    Option (JSONValue × List Char)
  | 0, _, _ => none
  | fuel + 1, cs, acc =>
    match skipSpace cs with
    | '"' :: rest =>
      match scanString (rest.length + 1) rest [] with
      | none => none
      | some (key, rest2) =>
        match skipSpace rest2 with
        | ':' :: rest3 =>
          match parseValue fuel rest3 with
          | none => none
          | some (v, rest4) =>
            match skipSpace rest4 with
            | ',' :: rest5 => parseMembers fuel rest5 ((key, v) :: acc)
            | '}' :: rest5 => some (.object ((key, v) :: acc).reverse, rest5)
            | _ => none
        | _ => none
    | _ => none
end

/-- Reads a whole JSON text: one value with only white space after it. -/
def parseJSON (data : String) : Option JSONValue :=
  match parseValue (2 * data.length + 2) data.data with
  | none => none
  | some (v, rest) => if skipSpace rest = [] then some v else none

/-- The case folding under which `encoding/json` compares an object key with a field name
made of ASCII letters: upper case to lower case, the long s to `s`, the Kelvin sign
to `k`. -/
def foldChar (c : Char) : Char :=
  if 'A' ≤ c ∧ c ≤ 'Z' then Char.ofNat (c.toNat + 32)
  else if c = Char.ofNat 0x17F then 's'
  else if c = Char.ofNat 0x212A then 'k'
  else c

/-- The word by which `encoding/json` names the kind of a JSON value in a type error. -/
def JSONValue.kind : JSONValue → String
  | .null => "null"
  | .bool _ => "bool"
  | .number _ => "number"
  | .string _ => "string"
  | .array _ => "array"
  | .object _ => "object"

/-- Stores a JSON value in a Go string: a string is stored, null changes nothing, any
other value is a type error. -/
def storeString (old : String) (field : String) (v : JSONValue) : String × Option GoError :=
  match v with
  | .string s => (⟨s⟩, none)
  | .null => (old, none)
  | v => (old, some (.errorString ("json: cannot unmarshal " ++ v.kind ++
      " into Go struct field oidcDiscoveryInfo." ++ field ++ " of type string")))

/-- Stores the members of a JSON object in the struct, in their order: a member whose key
matches the tag of a field (exactly or under case folding) is stored in that field, any
other member is skipped; the first type error is kept and decoding goes on. -/
def decodeMembers : List (List Char × JSONValue) → oidcDiscoveryInfo → Option GoError →
    oidcDiscoveryInfo × Option GoError
  | [], info, saved => (info, saved)
  | (key, v) :: rest, info, saved =>
    if key.map foldChar = "issuer".data then
      let (s, e) := storeString info.Issuer "issuer" v
      decodeMembers rest { info with Issuer := s } (saved <|> e)
    else if key.map foldChar = "jwks_uri".data then
      let (s, e) := storeString info.JWKSURL "jwks_uri" v
      decodeMembers rest { info with JWKSURL := s } (saved <|> e)
    else decodeMembers rest info saved

/-- Go `json.Unmarshal(data, &info)` for `info` of type `oidcDiscoveryInfo`: the value of
`info` afterwards and the error. The texts of the errors are indicative. -/
def Unmarshal (data : String) (info : oidcDiscoveryInfo) : oidcDiscoveryInfo × Option GoError :=
  match parseJSON data with
  | none => (info, some (.errorString "json: syntax error"))
  | some .null => (info, none)
  | some (.object members) => decodeMembers members info none
  | some v => (info, some (.errorString ("json: cannot unmarshal " ++ v.kind ++
      " into Go value of type msidal.oidcDiscoveryInfo")))

/-! ## The outside world -/

/-- What the package does to the outside world. -/
inductive Event where
  | httpDo (req : Request)
  | stdout (s : String)
  | verify (verifier : IDTokenVerifier) (rawIDToken : String)
deriving DecidableEq

/-- The events so far, oldest first. -/
abbrev Trace := List Event

/-- The answers of the libraries and of the network. Each may depend on everything that
happened before (the trace), which stands for time. -/
structure Env where
  /-- The error of `http.NewRequest(method, url, nil)`, if it has one. -/
  newRequestErr : String → String → Option GoError
  /-- The outcome of `httpClient.Do(req)`. -/
  roundTrip : Trace → Request → Except GoError Response
  /-- Go `json.Unmarshal(body, &discoveryInfo)`: the value of `discoveryInfo` afterwards
  and the error. -/
  jsonUnmarshal : String → oidcDiscoveryInfo → oidcDiscoveryInfo × Option GoError
  /-- The result pair of `verifier.Verify(ctx, rawIDToken)`. -/
  verify : Trace → IDTokenVerifier → String → Option IDToken × Option GoError

/-- Go `http.NewRequest` with a nil body. -/
def NewRequest (env : Env) (method url : String) : Except GoError Request :=
  match env.newRequestErr method url with
  | some err => .error err
  | none => .ok { Method := method, URL := url, Header := [] }

/-! ## The source file -/

/-- Type `AzureSettings` of the source. -/
structure AzureSettings where
  TenantID : String
  ClientID : String
  ActiveDirectoryEndpoint : String
deriving DecidableEq

/-- Type `azureProvider` of the source; the fields `authorizer`, `authorizerExpiration`
and `lock` are never set or read and keep their zero value. -/
structure azureProvider where
  oidcVerifier : IDTokenVerifier
  settings : AzureSettings
  httpClient : Client
deriving DecidableEq

/-- Function `userAgent` of the source. -/
def userAgent : String :=
  "Mozilla/5.0 (X11; Linux x86_64) AppleWebKit/537.36 (KHTML, like Gecko) Chrome/94.0.4606.71 Safari/537.36"

/-- Function `newAzureProvider` of the source: the provider or the error, and the trace
afterwards. The request is recorded when `httpClient.Do` is called, whatever its outcome;
the deferred `resp.Body.Close()` has no effect on the result and is left out. -/
def newAzureProvider (env : Env) (settings : AzureSettings) (tr : Trace) :
    Except GoError azureProvider × Trace :=
  let httpClient := Client.cleanhttpDefault
  let discoveryURL := Sprintf "%s%s/v2.0/.well-known/openid-configuration"
    [.str settings.ActiveDirectoryEndpoint, .str settings.TenantID]
  match NewRequest env "GET" discoveryURL with
  | .error err => (.error err, tr)
  | .ok req =>
    let req := req.HeaderSet "User-Agent" userAgent
    let tr1 := tr ++ [Event.httpDo req]
    match env.roundTrip tr req with
    | .error err => (.error err, tr1)
    | .ok resp =>
      match ReadAll resp.Body with
      | (_, some err) => (.error (Errorf "unable to read response body: %w" [.err err]), tr1)
      | (body, none) =>
        if resp.StatusCode ≠ StatusOK then
          (.error (Errorf "%s: %s" [.str resp.Status, .str body]), tr1)
        else
          match env.jsonUnmarshal body ⟨"", ""⟩ with
          | (_, some err) =>
            (.error (Errorf "unable to unmarshal discovery url: %w" [.err err]), tr1)
          | (discoveryInfo, none) =>
            let tr2 := tr1 ++ [Event.stdout (Sprintf "Found discoveryInfo %+v" [.info discoveryInfo])]
            let ctx := httpClient
            let remoteKeySet := NewRemoteKeySet ctx discoveryInfo.JWKSURL
            let verifierConfig : Config :=
              { ClientID := settings.ClientID, SupportedSigningAlgs := [RS256] }
            let oidcVerifier := NewVerifier discoveryInfo.Issuer remoteKeySet verifierConfig
            (.ok { settings := settings, oidcVerifier := oidcVerifier, httpClient := httpClient },
              tr2)

/-- Function `VerifyToken` of the source: the result pair `(*oidc.IDToken, error)` and the
trace afterwards. -/
def VerifyToken (env : Env) (settings : AzureSettings) (rawIDToken : String) (tr : Trace) :
    (Option IDToken × Option GoError) × Trace :=
  match newAzureProvider env settings tr with
  | (.error err, tr1) => ((none, some err), tr1)
  | (.ok provider, tr1) =>
    let trimmedIDToken := TrimPrefix rawIDToken "Bearer "
    (env.verify tr1 provider.oidcVerifier trimmedIDToken,
      tr1 ++ [Event.verify provider.oidcVerifier trimmedIDToken])

deriving instance DecidableEq for Except

/-! ## Observations on a trace -/

/-- The requests sent with `httpClient.Do`, oldest first. -/
def requests : Trace → List Request
  | [] => []
  | Event.httpDo req :: rest => req :: requests rest
  | _ :: rest => requests rest

/-- The calls of the verifier, oldest first: the verifier and the token string handed
to it. -/
def verifyCalls : Trace → List (IDTokenVerifier × String)
  | [] => []
  | Event.verify verifier rawIDToken :: rest => (verifier, rawIDToken) :: verifyCalls rest
  | _ :: rest => verifyCalls rest

/-- The request that `newAzureProvider` hands to `httpClient.Do` (lines 58 to 63 of the
source) once `http.NewRequest` has accepted the URL. -/
def discoveryRequest (settings : AzureSettings) : Request :=
  Request.HeaderSet
    { Method := "GET",
      URL := Sprintf "%s%s/v2.0/.well-known/openid-configuration"
        [.str settings.ActiveDirectoryEndpoint, .str settings.TenantID],
      Header := [] }
    "User-Agent" userAgent

/-! ## Concrete environments and inputs -/

/-- A stand-in for `IDTokenVerifier.Verify` in examples, with the order of the checks of
go-oidc: a token that is not three parts of base64url characters is malformed, a verifier
without a client identifier is an invalid configuration, any other token is taken as one
issued by the verifier's issuer for the verifier's client. -/
def exampleVerify (_ : Trace) (verifier : IDTokenVerifier) (rawIDToken : String) :
    Option IDToken × Option GoError :=
  if rawIDToken.data.count '.' ≠ 2 ∨
      ¬ rawIDToken.data.all (fun c => c.isAlphanum || c == '-' || c == '_' || c == '.') then
    (none, some (.errorString "oidc: malformed jwt"))
  else if verifier.config.ClientID = "" then
    (none, some (.errorString
      "oidc: invalid configuration, clientID must be provided or SkipClientIDCheck must be set"))
  else
    (some { Issuer := verifier.issuer, Audience := [verifier.config.ClientID],
            Subject := "alice", Expiry := 2000000000, IssuedAt := 1999996400 }, none)

/-- The environment in which `http.NewRequest` accepts every URL, the network answers
every request with `answer`, `json.Unmarshal` is the model `Unmarshal` and the verifier is
`exampleVerify`. -/
def answering (answer : Except GoError Response) : Env :=
  { newRequestErr := fun _ _ => none
    roundTrip := fun _ _ => answer
    jsonUnmarshal := Unmarshal
    verify := exampleVerify }

/-- A response whose body was read to the end. -/
def response (statusCode : Nat) (status body : String) : Except GoError Response :=
  .ok { Status := status, StatusCode := statusCode, Body := { data := body, err := none } }

/-- The settings of the scenario of the specification. -/
def contoso : AzureSettings :=
  { TenantID := "contoso", ClientID := "abc123",
    ActiveDirectoryEndpoint := "https://login.microsoftonline.com/" }

/-- A discovery document with both fields. -/
def contosoDocument : String :=
  "\x7b\"issuer\":\"https://login.microsoftonline.com/72f9/v2.0\"," ++
  "\"jwks_uri\":\"https://login.microsoftonline.com/72f9/discovery/v2.0/keys\"\x7d"

/-- The verifier built from `contosoDocument` for `contoso`. -/
def contosoVerifier : IDTokenVerifier :=
  { keySet := { ctx := .cleanhttpDefault,
                jwksURL := "https://login.microsoftonline.com/72f9/discovery/v2.0/keys" }
    config := { ClientID := "abc123", SupportedSigningAlgs := ["RS256"] }
    issuer := "https://login.microsoftonline.com/72f9/v2.0" }

/-- The claims `exampleVerify` returns for `contosoVerifier`. -/
def contosoClaims : IDToken :=
  { Issuer := "https://login.microsoftonline.com/72f9/v2.0", Audience := ["abc123"],
    Subject := "alice", Expiry := 2000000000, IssuedAt := 1999996400 }

/-- The discovery request of `contoso`. -/
def contosoRequest : Request :=
  { Method := "GET",
    URL := "https://login.microsoftonline.com/contoso/v2.0/.well-known/openid-configuration",
    Header := [("User-Agent", userAgent)] }

/-- The line `newAzureProvider` prints after decoding `contosoDocument`. -/
def contosoPrinted : String :=
  "Found discoveryInfo \x7bIssuer:https://login.microsoftonline.com/72f9/v2.0 " ++
  "JWKSURL:https://login.microsoftonline.com/72f9/discovery/v2.0/keys\x7d"


/-- The environment `answering` a request with `contosoDocument`, with a verifier whose
answer depends on the time: once ten events have passed it refuses every token as
expired. -/
def expiring : Env :=
  { answering (response 200 "200 OK" contosoDocument) with
    verify := fun tr verifier rawIDToken =>
      if tr.length < 10 then exampleVerify tr verifier rawIDToken
      else (none, some (.errorString "oidc: token is expired")) }

/-! ## Lemmas on `strings` and `fmt` -/

/-- `HasPrefix` decides the relation "is a leading part of" on the characters. -/
theorem HasPrefix_iff (s pre : String) : HasPrefix s pre = true ↔ pre.data <+: s.data := by
  simp only [HasPrefix, Bool.and_eq_true, decide_eq_true_eq, beq_iff_eq, String.length]
  constructor
  · rintro ⟨_, h⟩
    exact List.prefix_iff_eq_take.mpr h.symm
  · intro h
    exact ⟨h.length_le, (List.prefix_iff_eq_take.mp h).symm⟩

/-- Trimming a leading part that is there removes it and nothing else. -/
theorem TrimPrefix_append (pre t : String) : TrimPrefix (pre ++ t) pre = t := by
  have h : HasPrefix (pre ++ t) pre = true := by
    rw [HasPrefix_iff]; simp
  unfold TrimPrefix
  rw [if_pos h]
  apply String.ext
  show List.drop pre.data.length (pre.data ++ t.data) = t.data
  exact List.drop_left _ _

/-- Trimming a leading part that is not there changes nothing. -/
theorem TrimPrefix_of_not (s pre : String) (h : ¬ (pre.data <+: s.data)) :
    TrimPrefix s pre = s := by
  have h2 : HasPrefix s pre = false := by
    rw [← Bool.not_eq_true, HasPrefix_iff]; exact h
  simp [TrimPrefix, h2]

/-- The format of the discovery URL prints its two operands and the fixed end, joined. -/
theorem Sprintf_discoveryURL (a b : String) :
    Sprintf "%s%s/v2.0/.well-known/openid-configuration" [.str a, .str b]
      = a ++ b ++ "/v2.0/.well-known/openid-configuration" := by
  apply String.ext
  simp [Sprintf, doPrintf, Operand.text]

/-- The error for a status other than 200: no wrapped error, the message joined by `": "`. -/
theorem Errorf_status (status body : String) :
    Errorf "%s: %s" [.str status, .str body] = .errorString (status ++ ": " ++ body) := by
  have h : Sprintf "%s: %s" [.str status, .str body] = status ++ ": " ++ body := by
    apply String.ext
    simp [Sprintf, doPrintf, Operand.text]
  simp [Errorf, wrappedOperand, h]

/-- The error for a body that could not be read wraps the error of the reading. -/
theorem Errorf_readBody (err : GoError) :
    Errorf "unable to read response body: %w" [.err err]
      = .wrapError ("unable to read response body: " ++ err.Error) err := by
  have h : Sprintf "unable to read response body: %w" [.err err]
      = "unable to read response body: " ++ err.Error := by
    apply String.ext
    simp [Sprintf, doPrintf, Operand.text]
  simp [Errorf, wrappedOperand, h]

/-- The error for a body that could not be decoded wraps the error of the decoding. -/
theorem Errorf_unmarshal (err : GoError) :
    Errorf "unable to unmarshal discovery url: %w" [.err err]
      = .wrapError ("unable to unmarshal discovery url: " ++ err.Error) err := by
  have h : Sprintf "unable to unmarshal discovery url: %w" [.err err]
      = "unable to unmarshal discovery url: " ++ err.Error := by
    apply String.ext
    simp [Sprintf, doPrintf, Operand.text]
  simp [Errorf, wrappedOperand, h]

/-- The discovery request written out. -/
theorem discoveryRequest_eq (settings : AzureSettings) :
    discoveryRequest settings =
      { Method := "GET",
        URL := settings.ActiveDirectoryEndpoint ++ settings.TenantID
          ++ "/v2.0/.well-known/openid-configuration",
        Header := [("User-Agent", userAgent)] } := by
  simp [discoveryRequest, Request.HeaderSet, Sprintf_discoveryURL]

/-! ## Lemmas on traces -/

/-- The requests of two traces in a row. -/
theorem requests_append (tr1 tr2 : Trace) : requests (tr1 ++ tr2) = requests tr1 ++ requests tr2 := by
  induction tr1 with
  | nil => rfl
  | cons e rest ih => cases e <;> simp [requests, ih]

/-- The verifier calls of two traces in a row. -/
theorem verifyCalls_append (tr1 tr2 : Trace) :
    verifyCalls (tr1 ++ tr2) = verifyCalls tr1 ++ verifyCalls tr2 := by
  induction tr1 with
  | nil => rfl
  | cons e rest ih => cases e <;> simp [verifyCalls, ih]

/-! ## The stages of `newAzureProvider` -/

/-- The body of `newAzureProvider`, stage by stage, with the request and the error values
written out. -/
theorem newAzureProvider_eq (env : Env) (settings : AzureSettings) (tr : Trace) :
    newAzureProvider env settings tr =
      match env.newRequestErr "GET" (discoveryRequest settings).URL with
      | some err => (.error err, tr)
      | none =>
        match env.roundTrip tr (discoveryRequest settings) with
        | .error err => (.error err, tr ++ [Event.httpDo (discoveryRequest settings)])
        | .ok resp =>
          match resp.Body.err with
          | some err =>
            (.error (.wrapError ("unable to read response body: " ++ err.Error) err),
              tr ++ [Event.httpDo (discoveryRequest settings)])
          | none =>
            if resp.StatusCode ≠ 200 then
              (.error (.errorString (resp.Status ++ ": " ++ resp.Body.data)),
                tr ++ [Event.httpDo (discoveryRequest settings)])
            else
              match env.jsonUnmarshal resp.Body.data ⟨"", ""⟩ with
              | (_, some err) =>
                (.error (.wrapError ("unable to unmarshal discovery url: " ++ err.Error) err),
                  tr ++ [Event.httpDo (discoveryRequest settings)])
              | (info, none) =>
                (.ok { oidcVerifier :=
                         { keySet := { ctx := .cleanhttpDefault, jwksURL := info.JWKSURL }
                           config := { ClientID := settings.ClientID,
                                       SupportedSigningAlgs := ["RS256"] }
                           issuer := info.Issuer }
                       settings := settings
                       httpClient := .cleanhttpDefault },
                  tr ++ [Event.httpDo (discoveryRequest settings),
                         Event.stdout (Sprintf "Found discoveryInfo %+v" [.info info])]) := by
  have hU : Sprintf "%s%s/v2.0/.well-known/openid-configuration"
      [.str settings.ActiveDirectoryEndpoint, .str settings.TenantID]
      = (discoveryRequest settings).URL := rfl
  have hR : Request.HeaderSet
      { Method := "GET", URL := (discoveryRequest settings).URL, Header := [] }
      "User-Agent" userAgent = discoveryRequest settings := rfl
  unfold newAzureProvider NewRequest
  simp only [hU]
  cases hreq : env.newRequestErr "GET" (discoveryRequest settings).URL with
  | some err => rfl
  | none =>
    simp only [hR]
    cases hdo : env.roundTrip tr (discoveryRequest settings) with
    | error err => rfl
    | ok resp =>
      simp only [ReadAll]
      cases hread : resp.Body.err with
      | some err => simp only [Errorf_readBody]
      | none =>
        simp only [StatusOK]
        by_cases hstatus : resp.StatusCode = 200
        · simp only [hstatus, ne_eq, not_true_eq_false, if_false]
          cases hjson : env.jsonUnmarshal resp.Body.data ⟨"", ""⟩ with
          | mk info e =>
            cases e with
            | some err => simp only [Errorf_unmarshal]
            | none => simp only [NewVerifier, NewRemoteKeySet, RS256, List.append_assoc,
                List.singleton_append]
        · simp only [ne_eq, hstatus, not_false_eq_true, if_true, Errorf_status]

/-- Stage 1: `http.NewRequest` refuses the URL; nothing is sent. -/
theorem newAzureProvider_of_newRequest_err (env : Env) (settings : AzureSettings) (tr : Trace)
    (err : GoError)
    (hreq : env.newRequestErr "GET" (discoveryRequest settings).URL = some err) :
    newAzureProvider env settings tr = (.error err, tr) := by
  rw [newAzureProvider_eq]
  simp [*]

/-- Stage 2: `httpClient.Do` fails. -/
theorem newAzureProvider_of_transport_err (env : Env) (settings : AzureSettings) (tr : Trace)
    (err : GoError)
    (hreq : env.newRequestErr "GET" (discoveryRequest settings).URL = none)
    (hdo : env.roundTrip tr (discoveryRequest settings) = .error err) :
    newAzureProvider env settings tr = (.error err, tr ++ [Event.httpDo (discoveryRequest settings)]) := by
  rw [newAzureProvider_eq]
  simp [*]

/-- Stage 3: the body cannot be read to the end. -/
theorem newAzureProvider_of_read_err (env : Env) (settings : AzureSettings) (tr : Trace)
    (resp : Response) (err : GoError)
    (hreq : env.newRequestErr "GET" (discoveryRequest settings).URL = none)
    (hdo : env.roundTrip tr (discoveryRequest settings) = .ok resp)
    (hread : resp.Body.err = some err) :
    newAzureProvider env settings tr =
      (.error (.wrapError ("unable to read response body: " ++ err.Error) err),
        tr ++ [Event.httpDo (discoveryRequest settings)]) := by
  rw [newAzureProvider_eq]
  simp [*]

/-- Stage 4: the status is not 200. -/
theorem newAzureProvider_of_status (env : Env) (settings : AzureSettings) (tr : Trace)
    (resp : Response)
    (hreq : env.newRequestErr "GET" (discoveryRequest settings).URL = none)
    (hdo : env.roundTrip tr (discoveryRequest settings) = .ok resp)
    (hread : resp.Body.err = none)
    (hstatus : resp.StatusCode ≠ 200) :
    newAzureProvider env settings tr =
      (.error (.errorString (resp.Status ++ ": " ++ resp.Body.data)),
        tr ++ [Event.httpDo (discoveryRequest settings)]) := by
  rw [newAzureProvider_eq]
  simp [*]

/-- Stage 5: `json.Unmarshal` fails. -/
theorem newAzureProvider_of_unmarshal_err (env : Env) (settings : AzureSettings) (tr : Trace)
    (resp : Response) (info : oidcDiscoveryInfo) (err : GoError)
    (hreq : env.newRequestErr "GET" (discoveryRequest settings).URL = none)
    (hdo : env.roundTrip tr (discoveryRequest settings) = .ok resp)
    (hread : resp.Body.err = none)
    (hstatus : resp.StatusCode = 200)
    (hjson : env.jsonUnmarshal resp.Body.data ⟨"", ""⟩ = (info, some err)) :
    newAzureProvider env settings tr =
      (.error (.wrapError ("unable to unmarshal discovery url: " ++ err.Error) err),
        tr ++ [Event.httpDo (discoveryRequest settings)]) := by
  rw [newAzureProvider_eq]
  simp [*]

/-- Every stage succeeds: the provider that is built and the trace. -/
theorem newAzureProvider_of_document (env : Env) (settings : AzureSettings) (tr : Trace)
    (resp : Response) (info : oidcDiscoveryInfo)
    (hreq : env.newRequestErr "GET" (discoveryRequest settings).URL = none)
    (hdo : env.roundTrip tr (discoveryRequest settings) = .ok resp)
    (hread : resp.Body.err = none)
    (hstatus : resp.StatusCode = 200)
    (hjson : env.jsonUnmarshal resp.Body.data ⟨"", ""⟩ = (info, none)) :
    newAzureProvider env settings tr =
      (.ok { oidcVerifier :=
               { keySet := { ctx := .cleanhttpDefault, jwksURL := info.JWKSURL }
                 config := { ClientID := settings.ClientID, SupportedSigningAlgs := ["RS256"] }
                 issuer := info.Issuer }
             settings := settings
             httpClient := .cleanhttpDefault },
        tr ++ [Event.httpDo (discoveryRequest settings),
               Event.stdout (Sprintf "Found discoveryInfo %+v" [.info info])]) := by
  rw [newAzureProvider_eq]
  simp [*]

/-! ## Token normalisation -/

/-- C1: for every settings value and every string `t`, when discovery succeeds, a call of
`VerifyToken` with the raw token `"Bearer " ++ t` hands exactly `t` to the verifier and
returns the verifier's result for `t`; and when `t` does not itself begin with `"Bearer "`,
the calls with `"Bearer " ++ t` and with `t` give the same result and the same trace (the
same string handed to the verifier). -/
theorem VerifyToken_bearer (env : Env) (settings : AzureSettings) (t : String)
    (tr tr1 : Trace) (provider : azureProvider)
    (hdisc : newAzureProvider env settings tr = (.ok provider, tr1)) :
    VerifyToken env settings ("Bearer " ++ t) tr
        = (env.verify tr1 provider.oidcVerifier t,
            tr1 ++ [Event.verify provider.oidcVerifier t])
      ∧ (¬ ("Bearer ".data <+: t.data) →
          VerifyToken env settings ("Bearer " ++ t) tr = VerifyToken env settings t tr) := by
  constructor
  · simp only [VerifyToken, hdisc, TrimPrefix_append]
  · intro hno
    simp only [VerifyToken, hdisc, TrimPrefix_append, TrimPrefix_of_not t "Bearer " hno]

set_option maxRecDepth 10000 in
/-- C1 at the scenario of the specification: `"Bearer xyz.yyy.zzz"` against `"xyz.yyy.zzz"`. -/
theorem VerifyToken_bearer_witness :
    newAzureProvider (answering (response 200 "200 OK" contosoDocument)) contoso []
        = (.ok ⟨contosoVerifier, contoso, .cleanhttpDefault⟩,
            [.httpDo contosoRequest, .stdout contosoPrinted])
      ∧ ¬ ("Bearer ".data <+: "xyz.yyy.zzz".data)
      ∧ VerifyToken (answering (response 200 "200 OK" contosoDocument)) contoso
            ("Bearer " ++ "xyz.yyy.zzz") []
          = ((some contosoClaims, none),
              [.httpDo contosoRequest, .stdout contosoPrinted,
               .verify contosoVerifier "xyz.yyy.zzz"])
      ∧ VerifyToken (answering (response 200 "200 OK" contosoDocument)) contoso
            ("Bearer " ++ "xyz.yyy.zzz") []
          = VerifyToken (answering (response 200 "200 OK" contosoDocument)) contoso
            "xyz.yyy.zzz" [] :=
  have h := VerifyToken_bearer (answering (response 200 "200 OK" contosoDocument)) contoso
    "xyz.yyy.zzz" [] [.httpDo contosoRequest, .stdout contosoPrinted]
    ⟨contosoVerifier, contoso, .cleanhttpDefault⟩ (by rfl)
  ⟨by rfl, by decide, h.1.trans (by rfl), h.2 (by decide)⟩

/-- C2: for every raw token that does not begin with the seven characters `"Bearer "`
(compared exactly, case included), `VerifyToken` hands the raw string itself to the
verifier: the normalised token is the input, character for character. -/
theorem VerifyToken_no_bearer (env : Env) (settings : AzureSettings) (rawIDToken : String)
    (tr tr1 : Trace) (provider : azureProvider)
    (hdisc : newAzureProvider env settings tr = (.ok provider, tr1))
    (hno : ¬ ("Bearer ".data <+: rawIDToken.data)) :
    TrimPrefix rawIDToken "Bearer " = rawIDToken
      ∧ VerifyToken env settings rawIDToken tr
        = (env.verify tr1 provider.oidcVerifier rawIDToken,
            tr1 ++ [Event.verify provider.oidcVerifier rawIDToken]) := by
  have h := TrimPrefix_of_not rawIDToken "Bearer " hno
  exact ⟨h, by simp only [VerifyToken, hdisc, h]⟩

set_option maxRecDepth 10000 in
/-- C2 at `"BearerExtra xyz.yyy.zzz"`, which goes to the verifier as it is and is refused
as malformed; `"bearer xyz"` and `"xyz Bearer yyy"` are not changed either. -/
theorem VerifyToken_no_bearer_witness :
    ¬ ("Bearer ".data <+: "BearerExtra xyz.yyy.zzz".data)
      ∧ VerifyToken (answering (response 200 "200 OK" contosoDocument)) contoso
            "BearerExtra xyz.yyy.zzz" []
          = ((none, some (.errorString "oidc: malformed jwt")),
              [.httpDo contosoRequest, .stdout contosoPrinted,
               .verify contosoVerifier "BearerExtra xyz.yyy.zzz"])
      ∧ TrimPrefix "bearer xyz" "Bearer " = "bearer xyz"
      ∧ TrimPrefix "xyz Bearer yyy" "Bearer " = "xyz Bearer yyy" :=
  have h := VerifyToken_no_bearer (answering (response 200 "200 OK" contosoDocument)) contoso
    "BearerExtra xyz.yyy.zzz" [] [.httpDo contosoRequest, .stdout contosoPrinted]
    ⟨contosoVerifier, contoso, .cleanhttpDefault⟩ (by rfl) (by decide)
  ⟨by decide, h.2.trans (by rfl), by decide, by decide⟩

/-! ## Discovery -/

/-- The requests after `newAzureProvider`: one more, unless `http.NewRequest` refused. -/
theorem requests_newAzureProvider (env : Env) (settings : AzureSettings) (tr : Trace) :
    requests (newAzureProvider env settings tr).2 = requests tr ++
      (if env.newRequestErr "GET" (discoveryRequest settings).URL = none
        then [discoveryRequest settings] else []) := by
  rw [newAzureProvider_eq]
  cases hreq : env.newRequestErr "GET" (discoveryRequest settings).URL with
  | some err => simp
  | none =>
    simp only [if_true]
    cases hdo : env.roundTrip tr (discoveryRequest settings) with
    | error err => simp [requests_append, requests]
    | ok resp =>
      simp only []
      cases hread : resp.Body.err with
      | some err => simp [requests_append, requests]
      | none =>
        simp only []
        split
        · simp [requests_append, requests]
        · split <;> simp [requests_append, requests]

/-- Function `newAzureProvider` never calls the verifier. -/
theorem verifyCalls_newAzureProvider (env : Env) (settings : AzureSettings) (tr : Trace) :
    verifyCalls (newAzureProvider env settings tr).2 = verifyCalls tr := by
  rw [newAzureProvider_eq]
  cases hreq : env.newRequestErr "GET" (discoveryRequest settings).URL with
  | some err => simp
  | none =>
    simp only []
    cases hdo : env.roundTrip tr (discoveryRequest settings) with
    | error err => simp [verifyCalls_append, verifyCalls]
    | ok resp =>
      simp only []
      cases hread : resp.Body.err with
      | some err => simp [verifyCalls_append, verifyCalls]
      | none =>
        simp only []
        split
        · simp [verifyCalls_append, verifyCalls]
        · split <;> simp [verifyCalls_append, verifyCalls]

/-- Function `VerifyToken` sends no request beyond those of `newAzureProvider`. -/
theorem requests_VerifyToken (env : Env) (settings : AzureSettings) (rawIDToken : String)
    (tr : Trace) :
    requests (VerifyToken env settings rawIDToken tr).2
      = requests (newAzureProvider env settings tr).2 := by
  unfold VerifyToken
  split
  · next h => simp [h]
  · next h => simp [h, requests_append, requests]

/-- C3: for every settings value, `newAzureProvider` asks `http.NewRequest` for the URL
`ActiveDirectoryEndpoint ++ TenantID ++ "/v2.0/.well-known/openid-configuration"` and, when
it is accepted, sends exactly one request, a `GET` of that URL with the fixed user agent;
nothing is put between the parts or taken away, and the client identifier plays no part. -/
theorem newAzureProvider_discoveryURL (env : Env) (settings : AzureSettings) (tr : Trace) :
    requests (newAzureProvider env settings tr).2 = requests tr ++
        (if env.newRequestErr "GET" (settings.ActiveDirectoryEndpoint ++ settings.TenantID
            ++ "/v2.0/.well-known/openid-configuration") = none
          then [{ Method := "GET",
                  URL := settings.ActiveDirectoryEndpoint ++ settings.TenantID
                    ++ "/v2.0/.well-known/openid-configuration",
                  Header := [("User-Agent", userAgent)] }]
          else [])
      ∧ ∀ clientID : String,
          requests (newAzureProvider env { settings with ClientID := clientID } tr).2
            = requests (newAzureProvider env settings tr).2 := by
  have h := requests_newAzureProvider env settings tr
  rw [discoveryRequest_eq] at h
  refine ⟨h, fun clientID => ?_⟩
  rw [requests_newAzureProvider, requests_newAzureProvider, discoveryRequest_eq,
    discoveryRequest_eq]

set_option maxRecDepth 10000 in
/-- C3 at the scenario of the specification: tenant `contoso`, client `abc123`, authority
`https://login.microsoftonline.com/`. -/
theorem newAzureProvider_discoveryURL_witness :
    requests (newAzureProvider (answering (response 200 "200 OK" contosoDocument))
        { TenantID := "contoso", ClientID := "abc123",
          ActiveDirectoryEndpoint := "https://login.microsoftonline.com/" } []).2
      = [{ Method := "GET",
           URL := "https://login.microsoftonline.com/contoso/v2.0/.well-known/openid-configuration",
           Header := [("User-Agent", userAgent)] }] :=
  (newAzureProvider_discoveryURL (answering (response 200 "200 OK" contosoDocument))
    { TenantID := "contoso", ClientID := "abc123",
      ActiveDirectoryEndpoint := "https://login.microsoftonline.com/" } []).1.trans (by rfl)

/-- C4: for every settings value and every discovery document that was read with status
200 and decoded without error, the verifier `newAzureProvider` builds expects the issuer
of the document (its `issuer` field, not a string made from the settings), expects the
audience `settings.ClientID`, takes its keys from the document's `jwks_uri`, and allows
the one signing algorithm `RS256`. -/
theorem newAzureProvider_verifier (env : Env) (settings : AzureSettings) (tr : Trace)
    (resp : Response) (info : oidcDiscoveryInfo)
    (hreq : env.newRequestErr "GET" (discoveryRequest settings).URL = none)
    (hdo : env.roundTrip tr (discoveryRequest settings) = .ok resp)
    (hread : resp.Body.err = none)
    (hstatus : resp.StatusCode = 200)
    (hjson : env.jsonUnmarshal resp.Body.data ⟨"", ""⟩ = (info, none)) :
    ∃ provider tr1, newAzureProvider env settings tr = (.ok provider, tr1)
      ∧ provider.oidcVerifier.issuer = info.Issuer
      ∧ provider.oidcVerifier.config.ClientID = settings.ClientID
      ∧ provider.oidcVerifier.keySet.jwksURL = info.JWKSURL
      ∧ provider.oidcVerifier.config.SupportedSigningAlgs = ["RS256"] :=
  ⟨_, _, newAzureProvider_of_document env settings tr resp info hreq hdo hread hstatus hjson,
    rfl, rfl, rfl, rfl⟩

set_option maxRecDepth 10000 in
/-- C4 at the settings `contoso` and the document `contosoDocument`. -/
theorem newAzureProvider_verifier_witness :
    Unmarshal contosoDocument ⟨"", ""⟩
        = (⟨"https://login.microsoftonline.com/72f9/v2.0",
            "https://login.microsoftonline.com/72f9/discovery/v2.0/keys"⟩, none)
      ∧ ∃ provider tr1,
        newAzureProvider (answering (response 200 "200 OK" contosoDocument)) contoso []
          = (.ok provider, tr1)
        ∧ provider.oidcVerifier.issuer = "https://login.microsoftonline.com/72f9/v2.0"
        ∧ provider.oidcVerifier.config.ClientID = "abc123"
        ∧ provider.oidcVerifier.keySet.jwksURL
            = "https://login.microsoftonline.com/72f9/discovery/v2.0/keys"
        ∧ provider.oidcVerifier.config.SupportedSigningAlgs = ["RS256"] :=
  ⟨by rfl,
    newAzureProvider_verifier (answering (response 200 "200 OK" contosoDocument)) contoso []
      { Status := "200 OK", StatusCode := 200, Body := { data := contosoDocument, err := none } }
      ⟨"https://login.microsoftonline.com/72f9/v2.0",
        "https://login.microsoftonline.com/72f9/discovery/v2.0/keys"⟩
      rfl rfl rfl rfl (by rfl)⟩

/-! ## No provider cache -/

/-- The result of `newAzureProvider` depends on the trace only through the answer of the
network. -/
theorem newAzureProvider_result_congr (env : Env) (settings : AzureSettings) (tr tr2 : Trace)
    (hnet : env.roundTrip tr (discoveryRequest settings)
      = env.roundTrip tr2 (discoveryRequest settings)) :
    (newAzureProvider env settings tr).1 = (newAzureProvider env settings tr2).1 := by
  rw [newAzureProvider_eq, newAzureProvider_eq, hnet]
  cases hreq : env.newRequestErr "GET" (discoveryRequest settings).URL with
  | some err => rfl
  | none =>
    simp only []
    cases hdo : env.roundTrip tr2 (discoveryRequest settings) with
    | error err => rfl
    | ok resp =>
      simp only []
      cases hread : resp.Body.err with
      | some err => rfl
      | none =>
        simp only []
        split
        · rfl
        · split <;> rfl

/-- The result pair of `VerifyToken` in terms of the outcome of `newAzureProvider`. -/
theorem VerifyToken_result_eq (env : Env) (settings : AzureSettings) (rawIDToken : String)
    (tr : Trace) :
    (VerifyToken env settings rawIDToken tr).1 =
      match (newAzureProvider env settings tr).1 with
      | .error err => (none, some err)
      | .ok provider =>
        env.verify (newAzureProvider env settings tr).2 provider.oidcVerifier
          (TrimPrefix rawIDToken "Bearer ") := by
  unfold VerifyToken
  split <;> next h => simp [h]

set_option maxRecDepth 10000 in
/-- C5, counterexample: two calls of `VerifyToken` in sequence with the same valid token
and the same settings, against an endpoint that answers both times with the same
document, return the same claims, and the second call sends a discovery request of its
own: two discovery requests are sent, not at most one. -/
theorem VerifyToken_twice_counterexample :
    (VerifyToken (answering (response 200 "200 OK" contosoDocument)) contoso "xyz.yyy.zzz"
        []).1 = (some contosoClaims, none)
      ∧ (VerifyToken (answering (response 200 "200 OK" contosoDocument)) contoso "xyz.yyy.zzz"
          (VerifyToken (answering (response 200 "200 OK" contosoDocument)) contoso
            "xyz.yyy.zzz" []).2).1 = (some contosoClaims, none)
      ∧ requests (VerifyToken (answering (response 200 "200 OK" contosoDocument)) contoso
          "xyz.yyy.zzz" []).2 = [contosoRequest]
      ∧ requests (VerifyToken (answering (response 200 "200 OK" contosoDocument)) contoso
          "xyz.yyy.zzz"
          (VerifyToken (answering (response 200 "200 OK" contosoDocument)) contoso
            "xyz.yyy.zzz" []).2).2 = [contosoRequest, contosoRequest]
      ∧ ¬ (requests (VerifyToken (answering (response 200 "200 OK" contosoDocument)) contoso
          "xyz.yyy.zzz"
          (VerifyToken (answering (response 200 "200 OK" contosoDocument)) contoso
            "xyz.yyy.zzz" []).2).2).length ≤ 1 := by
  refine ⟨?_, ?_, ?_, ?_, ?_⟩ <;> decide

/-- C5, as the code has it: two calls of `VerifyToken` in sequence with the same token and the same
settings each send the discovery request, two requests in all whenever `http.NewRequest`
accepts the URL: the provider is built anew on every call and nothing is cached. The two
calls return the same result when the discovery endpoint answers the second discovery
request as it answered the first, and the verifier answers the second call as it answered
the first. -/
theorem VerifyToken_twice (env : Env) (settings : AzureSettings) (rawIDToken : String)
    (tr : Trace) :
    (env.newRequestErr "GET" (discoveryRequest settings).URL = none →
        requests (VerifyToken env settings rawIDToken
            (VerifyToken env settings rawIDToken tr).2).2
          = requests tr ++ [discoveryRequest settings, discoveryRequest settings])
      ∧ (env.roundTrip (VerifyToken env settings rawIDToken tr).2 (discoveryRequest settings)
            = env.roundTrip tr (discoveryRequest settings) →
          (∀ provider, (newAzureProvider env settings tr).1 = .ok provider →
            env.verify
                (newAzureProvider env settings (VerifyToken env settings rawIDToken tr).2).2
                provider.oidcVerifier (TrimPrefix rawIDToken "Bearer ")
              = env.verify (newAzureProvider env settings tr).2 provider.oidcVerifier
                (TrimPrefix rawIDToken "Bearer ")) →
          (VerifyToken env settings rawIDToken (VerifyToken env settings rawIDToken tr).2).1
            = (VerifyToken env settings rawIDToken tr).1) := by
  constructor
  · intro hreq
    rw [requests_VerifyToken, requests_newAzureProvider, requests_VerifyToken,
      requests_newAzureProvider]
    simp [hreq]
  · intro hnet hver
    rw [VerifyToken_result_eq, VerifyToken_result_eq env settings rawIDToken tr,
      newAzureProvider_result_congr env settings _ tr hnet]
    cases h : (newAzureProvider env settings tr).1 with
    | error err => rfl
    | ok provider => exact hver provider h

set_option maxRecDepth 10000 in
/-- C5, as the code has it, at the settings `contoso` in the environment `expiring`, whose
verifier does not answer the same at all times: the two calls, made before the token
expires, send two requests and return the same claims. -/
theorem VerifyToken_twice_witness :
    requests (VerifyToken expiring contoso "xyz.yyy.zzz"
        (VerifyToken expiring contoso "xyz.yyy.zzz" []).2).2
      = [contosoRequest, contosoRequest]
    ∧ (VerifyToken expiring contoso "xyz.yyy.zzz"
        (VerifyToken expiring contoso "xyz.yyy.zzz" []).2).1
      = (VerifyToken expiring contoso "xyz.yyy.zzz" []).1
    ∧ (VerifyToken expiring contoso "xyz.yyy.zzz" []).1 = (some contosoClaims, none)
    ∧ expiring.verify (List.replicate 10 (Event.stdout "")) contosoVerifier "xyz.yyy.zzz"
      = (none, some (.errorString "oidc: token is expired")) :=
  ⟨((VerifyToken_twice expiring contoso "xyz.yyy.zzz" []).1 rfl).trans (by rfl),
    (VerifyToken_twice expiring contoso "xyz.yyy.zzz" []).2 rfl (fun _ _ => by rfl),
    by rfl, by rfl⟩

/-! ## Failures of discovery -/

set_option maxRecDepth 10000 in
/-- C6, counterexample: the body `{}`, read with status 200, is valid JSON without the
fields `issuer` and `jwks_uri`; `json.Unmarshal` accepts it and leaves both fields empty,
and `newAzureProvider` returns a provider whose verifier expects the issuer `""` and takes
its keys from `""`, and no error. A body with `issuer` alone is accepted in the same way. -/
theorem newAzureProvider_empty_document_counterexample :
    parseJSON "\x7b\x7d" = some (.object [])
      ∧ newAzureProvider (answering (response 200 "200 OK" "\x7b\x7d")) contoso []
        = (.ok { oidcVerifier :=
                   { keySet := { ctx := .cleanhttpDefault, jwksURL := "" }
                     config := { ClientID := "abc123", SupportedSigningAlgs := ["RS256"] }
                     issuer := "" }
                 settings := contoso
                 httpClient := .cleanhttpDefault },
            [.httpDo contosoRequest, .stdout "Found discoveryInfo \x7bIssuer: JWKSURL:\x7d"])
      ∧ (newAzureProvider
          (answering (response 200 "200 OK" "\x7b\"issuer\":\"https://sts.example/\"\x7d"))
          contoso []).1
        = .ok { oidcVerifier :=
                  { keySet := { ctx := .cleanhttpDefault, jwksURL := "" }
                    config := { ClientID := "abc123", SupportedSigningAlgs := ["RS256"] }
                    issuer := "https://sts.example/" }
                settings := contoso
                httpClient := .cleanhttpDefault } :=
  ⟨by rfl, by rfl, by rfl⟩

/-- C6, as the code has it: for a discovery response with status 200 whose body was read, discovery
fails at the decoding stage exactly when `json.Unmarshal` returns an error, with the error
`unable to unmarshal discovery url: ` followed by that error, and then no verifier is
built; whenever `json.Unmarshal` returns no error, a body without `issuer` or `jwks_uri`
included, the verifier is built from the two fields as decoding left them. -/
theorem newAzureProvider_unmarshal (env : Env) (settings : AzureSettings) (tr : Trace)
    (resp : Response)
    (hreq : env.newRequestErr "GET" (discoveryRequest settings).URL = none)
    (hdo : env.roundTrip tr (discoveryRequest settings) = .ok resp)
    (hread : resp.Body.err = none)
    (hstatus : resp.StatusCode = 200) :
    (∀ info err, env.jsonUnmarshal resp.Body.data ⟨"", ""⟩ = (info, some err) →
        newAzureProvider env settings tr
          = (.error (.wrapError ("unable to unmarshal discovery url: " ++ err.Error) err),
              tr ++ [Event.httpDo (discoveryRequest settings)]))
      ∧ (∀ info, env.jsonUnmarshal resp.Body.data ⟨"", ""⟩ = (info, none) →
        ∃ provider tr1, newAzureProvider env settings tr = (.ok provider, tr1)
          ∧ provider.oidcVerifier.issuer = info.Issuer
          ∧ provider.oidcVerifier.keySet.jwksURL = info.JWKSURL) :=
  ⟨fun info err hjson =>
      newAzureProvider_of_unmarshal_err env settings tr resp info err hreq hdo hread hstatus
        hjson,
    fun info hjson =>
      ⟨_, _, newAzureProvider_of_document env settings tr resp info hreq hdo hread hstatus
        hjson, rfl, rfl⟩⟩

set_option maxRecDepth 10000 in
/-- C6, as the code has it, at a body that is not JSON, and at the body `{}`. -/
theorem newAzureProvider_unmarshal_witness :
    newAzureProvider (answering (response 200 "200 OK" "<html>")) contoso []
        = (.error (.wrapError "unable to unmarshal discovery url: json: syntax error"
            (.errorString "json: syntax error")), [.httpDo contosoRequest])
      ∧ ∃ provider tr1,
        newAzureProvider (answering (response 200 "200 OK" "\x7b\x7d")) contoso []
          = (.ok provider, tr1)
        ∧ provider.oidcVerifier.issuer = ""
        ∧ provider.oidcVerifier.keySet.jwksURL = "" :=
  ⟨((newAzureProvider_unmarshal (answering (response 200 "200 OK" "<html>")) contoso []
      { Status := "200 OK", StatusCode := 200, Body := { data := "<html>", err := none } }
      rfl rfl rfl rfl).1 ⟨"", ""⟩ (.errorString "json: syntax error") (by rfl)).trans (by rfl),
    (newAzureProvider_unmarshal (answering (response 200 "200 OK" "\x7b\x7d")) contoso []
      { Status := "200 OK", StatusCode := 200, Body := { data := "\x7b\x7d", err := none } }
      rfl rfl rfl rfl).2 ⟨"", ""⟩ (by rfl)⟩

/-- C7: for every discovery response whose status code is not 200 and whose body was
read, `newAzureProvider` returns no provider and an error whose message is the status
line, `": "` and the body; `VerifyToken` returns that error with nil claims. -/
theorem newAzureProvider_status_error (env : Env) (settings : AzureSettings)
    (rawIDToken : String) (tr : Trace) (resp : Response)
    (hreq : env.newRequestErr "GET" (discoveryRequest settings).URL = none)
    (hdo : env.roundTrip tr (discoveryRequest settings) = .ok resp)
    (hread : resp.Body.err = none)
    (hstatus : resp.StatusCode ≠ 200) :
    ∃ err, newAzureProvider env settings tr
          = (.error err, tr ++ [Event.httpDo (discoveryRequest settings)])
      ∧ err.Error = resp.Status ++ ": " ++ resp.Body.data
      ∧ VerifyToken env settings rawIDToken tr
          = ((none, some err), tr ++ [Event.httpDo (discoveryRequest settings)]) := by
  have h := newAzureProvider_of_status env settings tr resp hreq hdo hread hstatus
  exact ⟨_, h, rfl, by simp only [VerifyToken, h]⟩

set_option maxRecDepth 10000 in
/-- C7 at a response `404 Not Found`. -/
theorem newAzureProvider_status_error_witness :
    ∃ err, newAzureProvider (answering (response 404 "404 Not Found" "no such tenant"))
            contoso []
          = (.error err, [] ++ [Event.httpDo (discoveryRequest contoso)])
      ∧ err.Error = "404 Not Found" ++ ": " ++ "no such tenant"
      ∧ VerifyToken (answering (response 404 "404 Not Found" "no such tenant")) contoso
            "Bearer xyz.yyy.zzz" []
          = ((none, some err), [] ++ [Event.httpDo (discoveryRequest contoso)]) :=
  newAzureProvider_status_error (answering (response 404 "404 Not Found" "no such tenant"))
    contoso "Bearer xyz.yyy.zzz" []
    { Status := "404 Not Found", StatusCode := 404,
      Body := { data := "no such tenant", err := none } }
    rfl rfl rfl (by decide)

/-- C8: for every settings value and raw token, a failure of any stage of provider
construction (request construction, transport, reading the body, a status other than 200,
decoding) makes `newAzureProvider` fail, and whenever `newAzureProvider` fails
`VerifyToken` returns nil claims with that very error and never calls the verifier; so
claims that are not nil are returned only when the provider was built. -/
theorem VerifyToken_provider_error (env : Env) (settings : AzureSettings)
    (rawIDToken : String) (tr : Trace) :
    ((env.newRequestErr "GET" (discoveryRequest settings).URL ≠ none
        ∨ (∃ err, env.roundTrip tr (discoveryRequest settings) = .error err)
        ∨ (∃ resp, env.roundTrip tr (discoveryRequest settings) = .ok resp
            ∧ (resp.Body.err ≠ none ∨ resp.StatusCode ≠ 200
                ∨ (env.jsonUnmarshal resp.Body.data ⟨"", ""⟩).2 ≠ none))) →
        ∃ err tr1, newAzureProvider env settings tr = (.error err, tr1))
      ∧ (∀ err tr1, newAzureProvider env settings tr = (.error err, tr1) →
          VerifyToken env settings rawIDToken tr = ((none, some err), tr1)
            ∧ verifyCalls (VerifyToken env settings rawIDToken tr).2 = verifyCalls tr)
      ∧ (∀ claims, (VerifyToken env settings rawIDToken tr).1.1 = some claims →
          ∃ provider tr1, newAzureProvider env settings tr = (.ok provider, tr1)) := by
  refine ⟨?_, ?_, ?_⟩
  · intro hfail
    rw [newAzureProvider_eq]
    cases hreq : env.newRequestErr "GET" (discoveryRequest settings).URL with
    | some err => exact ⟨_, _, rfl⟩
    | none =>
      simp only []
      cases hdo : env.roundTrip tr (discoveryRequest settings) with
      | error err => exact ⟨_, _, rfl⟩
      | ok resp =>
        simp only []
        cases hread : resp.Body.err with
        | some err => exact ⟨_, _, rfl⟩
        | none =>
          simp only []
          by_cases hstatus : resp.StatusCode = 200
          · simp only [hstatus, ne_eq, not_true_eq_false, if_false]
            cases hjson : env.jsonUnmarshal resp.Body.data ⟨"", ""⟩ with
            | mk info e =>
              cases e with
              | some err => exact ⟨_, _, rfl⟩
              | none =>
                exfalso
                rcases hfail with h | ⟨err, h⟩ | ⟨resp2, h, h2⟩
                · exact h hreq
                · rw [hdo] at h; cases h
                · rw [hdo] at h
                  cases h
                  rcases h2 with h2 | h2 | h2
                  · exact h2 hread
                  · exact h2 hstatus
                  · rw [hjson] at h2; exact h2 rfl
          · simp only [ne_eq, hstatus, not_false_eq_true, if_true]
            exact ⟨_, _, rfl⟩
  · intro err tr1 h
    have hv : VerifyToken env settings rawIDToken tr = ((none, some err), tr1) := by
      simp only [VerifyToken, h]
    refine ⟨hv, ?_⟩
    rw [hv]
    have h2 := verifyCalls_newAzureProvider env settings tr
    rw [h] at h2
    exact h2
  · intro claims h
    cases hnp : newAzureProvider env settings tr with
    | mk r tr1 =>
      cases r with
      | ok provider => exact ⟨_, _, rfl⟩
      | error err =>
        simp only [VerifyToken, hnp] at h
        cases h

set_option maxRecDepth 10000 in
/-- C8 at an endpoint that cannot be reached, and at one that answers `404 Not Found`. -/
theorem VerifyToken_provider_error_witness :
    VerifyToken
        { answering (.error (.errorString "dial tcp: lookup login.example: no such host"))
          with verify := fun _ _ _ => (some contosoClaims, none) }
        contoso "Bearer xyz.yyy.zzz" []
      = ((none, some (.errorString "dial tcp: lookup login.example: no such host")),
          [.httpDo contosoRequest])
    ∧ ∃ err tr1, newAzureProvider (answering (response 404 "404 Not Found" "no such tenant"))
        contoso [] = (.error err, tr1) :=
  ⟨((VerifyToken_provider_error
      { answering (.error (.errorString "dial tcp: lookup login.example: no such host"))
        with verify := fun _ _ _ => (some contosoClaims, none) }
      contoso "Bearer xyz.yyy.zzz" []).2.1
      (.errorString "dial tcp: lookup login.example: no such host") [.httpDo contosoRequest]
      (by rfl)).1,
    (VerifyToken_provider_error (answering (response 404 "404 Not Found" "no such tenant"))
      contoso "Bearer xyz.yyy.zzz" []).1
      (Or.inr (Or.inr ⟨_, rfl, Or.inr (Or.inl (by decide))⟩))⟩

/-- C10: `VerifyToken` builds the provider before it looks at the token. For every
settings value and any two raw tokens the discovery requests sent are the same, and when
provider construction fails both calls return the same result, nil claims with the error
of the construction, and leave the same trace. -/
theorem VerifyToken_token_independent (env : Env) (settings : AzureSettings)
    (t1 t2 : String) (tr : Trace) :
    requests (VerifyToken env settings t1 tr).2 = requests (VerifyToken env settings t2 tr).2
      ∧ ∀ err tr1, newAzureProvider env settings tr = (.error err, tr1) →
          VerifyToken env settings t1 tr = ((none, some err), tr1)
            ∧ VerifyToken env settings t2 tr = ((none, some err), tr1) := by
  constructor
  · rw [requests_VerifyToken, requests_VerifyToken]
  · intro err tr1 h
    constructor <;> simp only [VerifyToken, h]

set_option maxRecDepth 10000 in
/-- C10 at an empty token and a malformed one, against an endpoint that answers
`503 Service Unavailable`. -/
theorem VerifyToken_token_independent_witness :
    VerifyToken (answering (response 503 "503 Service Unavailable" "")) contoso "" []
        = ((none, some (.errorString "503 Service Unavailable: ")), [.httpDo contosoRequest])
      ∧ VerifyToken (answering (response 503 "503 Service Unavailable" "")) contoso
          "Bearer not a token" []
        = ((none, some (.errorString "503 Service Unavailable: ")), [.httpDo contosoRequest]) :=
  (VerifyToken_token_independent (answering (response 503 "503 Service Unavailable" ""))
    contoso "" "Bearer not a token" []).2
    (.errorString "503 Service Unavailable: ") [.httpDo contosoRequest] (by rfl)

end Msidal
